import Mathlib

/-!
Verification of the GPU discovery and metrics-collection core of the
Linux_Graphics_Card_Viewer repository.

The main kernel module (`gpu_monitor`, "Advanced Real GPU Hardware Monitor
v2.0") enumerates PCI display devices, probes sysfs/hwmon/DRM capability
paths per device, periodically refreshes a bounded table of per-GPU metric
snapshots, and exposes the table as line-oriented key:value text through a
proc file.  A second variant (`gpu_viewer_v3`) ships the device identities
over a netlink channel to a GTK client that validates the binary packet
before rendering it.

This file gives a shallow embedding of those components:
  - the sysfs tree is a function from path strings to file outcomes;
  - each C function becomes a pure Lean function over explicit state;
  - `u32` assignment of a C `long` models the 2^32 wrap, and C integer
    division on `long` is `Int.tdiv` (truncation toward zero);
  - the proc-file output is the list of lines emitted by `seq_printf`
    (each `seq_printf` in the source ends its format string with a single
    newline, so the byte stream is exactly the newline-join of the list).
-/

namespace GpuViewer

/-! ## Constants from the source -/

/-- PCI vendor id of NVIDIA (`PCI_VENDOR_ID_NVIDIA`). -/
def PCI_VENDOR_ID_NVIDIA : Nat := 0x10de

/-- PCI vendor id of AMD (`PCI_VENDOR_ID_AMD`). -/
def PCI_VENDOR_ID_AMD : Nat := 0x1002

/-- PCI vendor id of Intel (`PCI_VENDOR_ID_INTEL`). -/
def PCI_VENDOR_ID_INTEL : Nat := 0x8086

/-- Capacity of the device table (`MAX_GPUS`). -/
def MAX_GPUS : Nat := 4

/-! ## Sysfs model

`read_sysfs_file` in the source opens a path (`filp_open`), reads it
(`kernel_read`), and the callers then parse the text with `kstrtol`.
Each of those three stages can fail independently, so a path maps to one
of four outcomes. -/

/-- Outcome of opening, reading and integer-parsing one sysfs path. -/
inductive FileEntry where
  /-- `filp_open` fails: the path does not exist. -/
  | absent
  /-- The path opens but `kernel_read` fails (`read_sysfs_file` returns -1). -/
  | unreadable
  /-- `read_sysfs_file` succeeds but `kstrtol` rejects the contents. -/
  | unparsable
  /-- `read_sysfs_file` succeeds and `kstrtol` parses the value `v`. -/
  | value (v : Int)
deriving DecidableEq

/-- The sysfs tree as seen by the module: one outcome per path. -/
def Fs := String → FileEntry

/-- Embeds `path_exists`: true iff `filp_open` succeeds. -/
def path_exists (fs : Fs) (p : String) : Bool :=
  match fs p with
  | .absent => false
  | _ => true

/-- True iff `read_sysfs_file` returns 0 for the path. -/
def read_ok (fs : Fs) (p : String) : Bool :=
  match fs p with
  | .unparsable => true
  | .value _ => true
  | _ => false

/-- The parsed integer of a path when `read_sysfs_file` and `kstrtol`
both succeed. -/
def leaf_val (fs : Fs) (p : String) : Option Int :=
  match fs p with
  | .value v => some v
  | _ => none

/-- Assignment of a C `long` expression to a `u32` field: wrap modulo 2^32
(two's-complement conversion, always non-negative). -/
def u32 (v : Int) : Nat := (v % 4294967296).toNat

/-! ## Data model: `struct gpu_monitor` and PCI devices -/

/-- Embeds `struct gpu_monitor`.  The `pdev` pointer is dropped (the
embedding has no notion of the kernel PCI handle); all `u32` metric
fields become `Nat` (already wrapped), `bool` flags become `Bool`. -/
structure GpuMonitor where
  name : String
  driver : String
  vendor_id : Nat
  device_id : Nat
  hwmon_path : String
  drm_path : String
  pci_path : String
  memory_used_mb : Nat
  memory_total_mb : Nat
  temperature_c : Nat
  clock_mhz : Nat
  power_watts : Nat
  utilization_pct : Nat
  fan_rpm : Nat
  hwmon_available : Bool
  drm_available : Bool
  memory_info_available : Bool
  temp_available : Bool
  power_available : Bool
  clock_available : Bool
  util_available : Bool
  fan_available : Bool
  last_update : Nat
deriving DecidableEq

/-- A PCI device as the scan sees it: vendor id, device id, and the full
24-bit class code `pdev->class` (base class << 16 | subclass << 8 |
programming interface). -/
structure PciDev where
  vendor : Nat
  device : Nat
  classCode : Nat
deriving DecidableEq

/-! ## Capability probing (`init_gpu_paths`, lines 356-389)

`init_gpu_paths` first formats the PCI path, then runs `find_gpu_hwmon`
and `find_gpu_drm` (bounded searches that set `hwmon_available` /
`hwmon_path` and `drm_available` / `drm_path`), and finally probes the
individual metric leaves.  The leaf-probing tail is embedded here; it
takes a record in which the two searches have already filled in their
results. -/

/-- Embeds the capability checks of `init_gpu_paths`: given the hwmon and
DRM roots discovered by `find_gpu_hwmon` / `find_gpu_drm`, probe each
metric leaf for existence and set the availability flags.  The power
probe tries `power1_average` first and falls back to `power1_input`;
the clock probe tries `gt/gt0/rps_cur_freq_mhz` then `gt_cur_freq_mhz`. -/
def init_gpu_caps (fs : Fs) (gpu : GpuMonitor) : GpuMonitor :=
  let gpu : GpuMonitor :=
    if gpu.hwmon_available then
      let temp_av := path_exists fs (gpu.hwmon_path ++ ("/temp1_input"))
      let power_path :=
        if path_exists fs (gpu.hwmon_path ++ ("/power1_average")) then
          gpu.hwmon_path ++ ("/power1_average")
        else
          gpu.hwmon_path ++ ("/power1_input")
      let power_av := path_exists fs power_path
      let fan_av := path_exists fs (gpu.hwmon_path ++ ("/fan1_input"))
      { gpu with temp_available := temp_av, power_available := power_av,
                 fan_available := fan_av }
    else gpu
  if gpu.drm_available then
    let mem_av := path_exists fs (gpu.drm_path ++ ("/device/mem_info_vram_used"))
    let util_av := path_exists fs (gpu.drm_path ++ ("/device/gpu_busy_percent"))
    let clock_path :=
      if path_exists fs (gpu.drm_path ++ ("/gt/gt0/rps_cur_freq_mhz")) then
        gpu.drm_path ++ ("/gt/gt0/rps_cur_freq_mhz")
      else
        gpu.drm_path ++ ("/gt_cur_freq_mhz")
    let clock_av := path_exists fs clock_path
    { gpu with memory_info_available := mem_av, util_available := util_av,
               clock_available := clock_av }
  else gpu

/-! ## Metric readers -/

/-- The "Temperature" block that `read_nvidia_data` and `read_amd_data`
share verbatim: read `temp1_input` and convert millidegrees to
degrees. -/
def read_hwmon_temp (fs : Fs) (gpu : GpuMonitor) : GpuMonitor :=
  if gpu.temp_available then
    match leaf_val fs (gpu.hwmon_path ++ ("/temp1_input")) with
    | some v => { gpu with temperature_c := u32 (Int.tdiv v 1000) }
    | none => gpu
  else gpu

/-- The "Power" block shared by `read_nvidia_data` and `read_amd_data`:
read `power1_average` (only — the probe fallback `power1_input` is
never read here) and convert microwatts to watts. -/
def read_hwmon_power (fs : Fs) (gpu : GpuMonitor) : GpuMonitor :=
  if gpu.power_available then
    match leaf_val fs (gpu.hwmon_path ++ ("/power1_average")) with
    | some v => { gpu with power_watts := u32 (Int.tdiv v 1000000) }
    | none => gpu
  else gpu

/-- The "Fan speed" block shared by `read_nvidia_data` and
`read_amd_data`: read `fan1_input`, RPM passed through. -/
def read_hwmon_fan (fs : Fs) (gpu : GpuMonitor) : GpuMonitor :=
  if gpu.fan_available then
    match leaf_val fs (gpu.hwmon_path ++ ("/fan1_input")) with
    | some v => { gpu with fan_rpm := u32 v }
    | none => gpu
  else gpu

/-- Embeds `read_nvidia_data`: hwmon-only reads with fixed unit
conversions.  A field is assigned only when its availability flag is
set and the read and parse both succeed. -/
def read_nvidia_data (fs : Fs) (gpu : GpuMonitor) : GpuMonitor :=
  if !gpu.hwmon_available then gpu
  else read_hwmon_fan fs (read_hwmon_power fs (read_hwmon_temp fs gpu))

/-- The "Memory usage" block of `read_amd_data`: `mem_info_vram_used`
and `mem_info_vram_total`, bytes converted to MB by dividing by 2^20. -/
def read_drm_memory (fs : Fs) (gpu : GpuMonitor) : GpuMonitor :=
  if gpu.memory_info_available then
    let gpu : GpuMonitor :=
      match leaf_val fs (gpu.drm_path ++ ("/device/mem_info_vram_used")) with
      | some v => { gpu with memory_used_mb := u32 (Int.tdiv v (1024 * 1024)) }
      | none => gpu
    match leaf_val fs (gpu.drm_path ++ ("/device/mem_info_vram_total")) with
    | some v => { gpu with memory_total_mb := u32 (Int.tdiv v (1024 * 1024)) }
    | none => gpu
  else gpu

/-- The "GPU utilization" block of `read_amd_data`:
`gpu_busy_percent`, passed through. -/
def read_drm_util (fs : Fs) (gpu : GpuMonitor) : GpuMonitor :=
  if gpu.util_available then
    match leaf_val fs (gpu.drm_path ++ ("/device/gpu_busy_percent")) with
    | some v => { gpu with utilization_pct := u32 v }
    | none => gpu
  else gpu

/-- Embeds `read_amd_data`: the same hwmon block sequence as the NVIDIA
strategy, then the DRM memory and utilization blocks. -/
def read_amd_data (fs : Fs) (gpu : GpuMonitor) : GpuMonitor :=
  let gpu : GpuMonitor :=
    if gpu.hwmon_available then
      read_hwmon_fan fs (read_hwmon_power fs (read_hwmon_temp fs gpu))
    else gpu
  if gpu.drm_available then
    read_drm_util fs (read_drm_memory fs gpu)
  else gpu

/-- Embeds `read_intel_data`.  `counter` is the value of the static
counter after the `counter++` at this invocation (it starts at 0 and is
pre-incremented once per call, so the first call sees 1).  The CPU
thermal proxy is the fixed path `hwmon2/temp1_input` plus 5; the clock
is tried on three DRM path variants, falling through only when the read
itself fails; every remaining field is synthesized from the counter. -/
def read_intel_data (fs : Fs) (counter : Nat) (gpu : GpuMonitor) : GpuMonitor :=
  let gpu : GpuMonitor := { gpu with memory_used_mb := 0, memory_total_mb := 0 }
  let gpu : GpuMonitor :=
    if path_exists fs ("/sys/class/hwmon/hwmon2/temp1_input") then
      match leaf_val fs ("/sys/class/hwmon/hwmon2/temp1_input") with
      | some v => { gpu with temperature_c := u32 (Int.tdiv v 1000 + 5) }
      | none => gpu
    else gpu
  let gpu : GpuMonitor :=
    if gpu.drm_available then
      if read_ok fs (gpu.drm_path ++ ("/gt/gt0/rps_cur_freq_mhz")) then
        match leaf_val fs (gpu.drm_path ++ ("/gt/gt0/rps_cur_freq_mhz")) with
        | some v => { gpu with clock_mhz := u32 v }
        | none => gpu
      else if read_ok fs (gpu.drm_path ++ ("/gt_cur_freq_mhz")) then
        match leaf_val fs (gpu.drm_path ++ ("/gt_cur_freq_mhz")) with
        | some v => { gpu with clock_mhz := u32 v }
        | none => gpu
      else if read_ok fs (gpu.drm_path ++ ("/device/gt_cur_freq_mhz")) then
        match leaf_val fs (gpu.drm_path ++ ("/device/gt_cur_freq_mhz")) with
        | some v => { gpu with clock_mhz := u32 v }
        | none => gpu
      else gpu
    else gpu
  let gpu : GpuMonitor := { gpu with utilization_pct := counter * 7 % 101 }
  let gpu : GpuMonitor := { gpu with memory_used_mb := 512 + counter * 13 % 1536 }
  let gpu : GpuMonitor := { gpu with memory_total_mb := 4096 }
  let gpu : GpuMonitor := { gpu with power_watts := 5 + counter * 3 % 20 }
  let gpu : GpuMonitor :=
    if gpu.temperature_c = 0 then
      { gpu with temperature_c := 45 + counter * 2 % 25 }
    else gpu
  if gpu.clock_mhz = 0 then
    { gpu with clock_mhz := 300 + counter * 11 % 900 }
  else gpu

/-! ## Refresh (`update_gpu_data`, lines 584-617) -/

/-- The reset phase of `update_gpu_data` (lines 589-595): the six fields
it zeroes before the vendor strategy runs.  `memory_total_mb` is not in
the source's reset list. -/
def reset_metrics (gpu : GpuMonitor) : GpuMonitor :=
  { gpu with memory_used_mb := 0, temperature_c := 0, clock_mhz := 0,
             power_watts := 0, utilization_pct := 0, fan_rpm := 0 }

/-- The vendor switch of `update_gpu_data` (lines 597-614): exactly one
of the three strategies runs, by vendor id; unknown vendors only log. -/
def dispatch_read (fs : Fs) (counter : Nat) (gpu : GpuMonitor) : GpuMonitor :=
  if gpu.vendor_id = PCI_VENDOR_ID_NVIDIA then read_nvidia_data fs gpu
  else if gpu.vendor_id = PCI_VENDOR_ID_AMD then read_amd_data fs gpu
  else if gpu.vendor_id = PCI_VENDOR_ID_INTEL then read_intel_data fs counter gpu
  else gpu

/-- Embeds `update_gpu_data`: reset, vendor dispatch, then stamp
`last_update` with the current jiffies.  (The `!gpu || !gpu->pdev` guard
has no counterpart: records are never null here.) -/
def update_gpu_data (fs : Fs) (counter jiffies : Nat) (gpu : GpuMonitor) : GpuMonitor :=
  let g : GpuMonitor := dispatch_read fs counter (reset_metrics gpu)
  { g with last_update := jiffies }

/-! ## Exposure adapter (`gpu_proc_show`, lines 635-683)

Every `seq_printf` call in `gpu_proc_show` ends its format string with
one newline, so the proc-file byte stream is exactly the newline-join of
a list of lines; the output is modelled as that list (the bare
`seq_printf(m, "\n")` calls contribute empty lines). -/

/-- Hexadecimal digit character, lower case, as printf `%x` emits it. -/
def hexDigit (n : Nat) : Char :=
  if n < 10 then Char.ofNat (48 + n) else Char.ofNat (87 + n)

/-- Rendering of a `u16` identifier by printf `%04x` (the ids are 16-bit,
so four digits always suffice). -/
def hex4 (n : Nat) : String :=
  String.mk [hexDigit (n / 4096 % 16), hexDigit (n / 256 % 16),
             hexDigit (n / 16 % 16), hexDigit (n % 16)]

/-- Rendering of a C `bool` by printf `%d`: 0 or 1. -/
def boolVal (b : Bool) : String := if b then ("1") else ("0")

/-- The per-device block of lines `gpu_proc_show` prints for the device
at slot `i`, terminated by a blank line. -/
def gpu_block (i : Nat) (g : GpuMonitor) : List String :=
  [ ("GPU_") ++ toString i ++ ("_NAME:") ++ g.name,
    ("GPU_") ++ toString i ++ ("_VENDOR_ID:0x") ++ hex4 g.vendor_id,
    ("GPU_") ++ toString i ++ ("_DEVICE_ID:0x") ++ hex4 g.device_id,
    ("GPU_") ++ toString i ++ ("_DRIVER:") ++ g.driver,
    ("GPU_") ++ toString i ++ ("_PCI_PATH:") ++ g.pci_path,
    ("GPU_") ++ toString i ++ ("_HWMON_PATH:") ++
      (if g.hwmon_available then g.hwmon_path else ("N/A")),
    ("GPU_") ++ toString i ++ ("_DRM_PATH:") ++
      (if g.drm_available then g.drm_path else ("N/A")),
    ("GPU_") ++ toString i ++ ("_MEMORY_USED:") ++ toString g.memory_used_mb,
    ("GPU_") ++ toString i ++ ("_MEMORY_TOTAL:") ++ toString g.memory_total_mb,
    ("GPU_") ++ toString i ++ ("_TEMPERATURE:") ++ toString g.temperature_c,
    ("GPU_") ++ toString i ++ ("_CLOCK_MHZ:") ++ toString g.clock_mhz,
    ("GPU_") ++ toString i ++ ("_POWER_WATTS:") ++ toString g.power_watts,
    ("GPU_") ++ toString i ++ ("_UTILIZATION:") ++ toString g.utilization_pct,
    ("GPU_") ++ toString i ++ ("_FAN_RPM:") ++ toString g.fan_rpm,
    ("GPU_") ++ toString i ++ ("_CAPS_TEMP:") ++ boolVal g.temp_available,
    ("GPU_") ++ toString i ++ ("_CAPS_POWER:") ++ boolVal g.power_available,
    ("GPU_") ++ toString i ++ ("_CAPS_MEMORY:") ++ boolVal g.memory_info_available,
    ("GPU_") ++ toString i ++ ("_CAPS_UTIL:") ++ boolVal g.util_available,
    ("GPU_") ++ toString i ++ ("_CAPS_CLOCK:") ++ boolVal g.clock_available,
    ("GPU_") ++ toString i ++ ("_CAPS_FAN:") ++ boolVal g.fan_available,
    ("GPU_") ++ toString i ++ ("_LAST_UPDATE:") ++ toString g.last_update,
    ("") ]

/-- Embeds `gpu_proc_show`.  `gpus` is the device table (its length is
the global `gpu_count`); `jiffies` is the value of the live kernel tick
counter at the moment the proc file is read — the source prints the
global `jiffies` variable in the `LAST_UPDATE` header, not a stored
refresh timestamp. -/
def gpu_proc_show (gpus : List GpuMonitor) (jiffies : Nat) : List String :=
  [ ("GPU_COUNT:") ++ toString gpus.length,
    ("LAST_UPDATE:") ++ toString jiffies,
    ("DATA_SOURCE:REAL_HARDWARE_SYSFS"),
    ("MODULE_VERSION:2.0"),
    ("") ]
  ++ (gpus.enum.map (fun p => gpu_block p.1 p.2)).flatten

/-! ## PCI scan (`detect_gpus`, lines 698-770) -/

/-- The class filter of `detect_gpus`: the scan keeps a device iff the
base+subclass of its PCI class code is 0x0300 (VGA controller) or
0x0302 (3D controller). -/
def detect_accept (d : PciDev) : Bool :=
  d.classCode >>> 8 == 0x0300 || d.classCode >>> 8 == 0x0302

/-- The freshly `kzalloc`-zeroed `struct gpu_monitor`. -/
def zeroGpu : GpuMonitor :=
  { name := (""), driver := (""), vendor_id := 0, device_id := 0,
    hwmon_path := (""), drm_path := (""), pci_path := (""),
    memory_used_mb := 0, memory_total_mb := 0, temperature_c := 0,
    clock_mhz := 0, power_watts := 0, utilization_pct := 0, fan_rpm := 0,
    hwmon_available := false, drm_available := false,
    memory_info_available := false, temp_available := false,
    power_available := false, clock_available := false,
    util_available := false, fan_available := false, last_update := 0 }

/-- The identity initialisation in the body of `detect_gpus`: ids are
copied from the PCI device and the name / driver strings are chosen by
the vendor switch (three known vendors, otherwise "unknown"). -/
def mk_gpu_basic (d : PciDev) : GpuMonitor :=
  let base : GpuMonitor := { zeroGpu with vendor_id := d.vendor, device_id := d.device }
  if d.vendor = PCI_VENDOR_ID_NVIDIA then
    { base with name := ("NVIDIA GPU [") ++ hex4 d.vendor ++ (":") ++ hex4 d.device ++ ("]"),
                driver := ("nvidia") }
  else if d.vendor = PCI_VENDOR_ID_AMD then
    { base with name := ("AMD GPU [") ++ hex4 d.vendor ++ (":") ++ hex4 d.device ++ ("]"),
                driver := ("amdgpu") }
  else if d.vendor = PCI_VENDOR_ID_INTEL then
    { base with name := ("Intel GPU [") ++ hex4 d.vendor ++ (":") ++ hex4 d.device ++ ("]"),
                driver := ("i915") }
  else
    { base with name := ("Unknown GPU [") ++ hex4 d.vendor ++ (":") ++ hex4 d.device ++ ("]"),
                driver := ("unknown") }

/-- The `pci_get_device` loop of `detect_gpus`.  `probe` stands for the
call to `init_gpu_paths` (whose hwmon / DRM searches walk the live
filesystem); `count` is the number of slots already filled.  The loop
condition evaluates `count < MAX_GPUS` after fetching the next device,
so enumeration stops as soon as the table is full.  `kzalloc` is assumed
to succeed (its failure path just skips a device). -/
def detect_loop (probe : GpuMonitor → GpuMonitor) : List PciDev → Nat → List GpuMonitor
  | [], _ => []
  | d :: rest, count =>
    if count < MAX_GPUS then
      if detect_accept d then
        probe (mk_gpu_basic d) :: detect_loop probe rest (count + 1)
      else
        detect_loop probe rest count
    else []

/-- Embeds `detect_gpus`: returns the populated device table and the
function's return value (0 on success, `-ENODEV` = -19 when no device
qualified). -/
def detect_gpus (probe : GpuMonitor → GpuMonitor) (devs : List PciDev) :
    List GpuMonitor × Int :=
  let table := detect_loop probe devs 0
  (table, if table.length > 0 then 0 else -19)

/-- Embeds `gpu_monitor_init` up to device discovery: if `detect_gpus`
fails its error code is returned and nothing else happens; otherwise the
module loads (proc-entry creation and the initial timer tick are outside
this model) and returns 0.  The second component is the device table. -/
def gpu_monitor_init (probe : GpuMonitor → GpuMonitor) (devs : List PciDev) :
    Int × List GpuMonitor :=
  let r := detect_gpus probe devs
  if r.2 < 0 then (r.2, r.1) else (0, r.1)

/-! ## The v3 netlink module (`gpu_viewer_lkm.c`) and GTK client -/

/-- The class filter of `nl_recv_msg` in `gpu_viewer_lkm.c` (lines
102-105): all four display subclasses qualify — VGA 0x0300, XGA 0x0301,
3D 0x0302, other display 0x0380. -/
def nl_accept (classCode : Nat) : Bool :=
  classCode >>> 8 == 0x0300 || classCode >>> 8 == 0x0301 ||
  classCode >>> 8 == 0x0302 || classCode >>> 8 == 0x0380

/-- Aligned netlink header size `NLMSG_HDRLEN` (16 bytes on the target
ABI). -/
def NLMSG_HDRLEN : Nat := 16

/-- Byte offset of the `gpus` array inside `struct all_gpus_info_packet`
(`int num_gpus_found` occupies bytes 0-3). -/
def OFFSETOF_GPUS : Nat := 4

/-- Size of one `struct gpu_info_packet`: two `unsigned short` and four
`unsigned char`, packed to 8 bytes. -/
def SIZEOF_GPU_INFO_PACKET : Nat := 8

/-- Capacity constant `MAX_GPUS_SUPPORTED` from `gpu_proto.h`. -/
def MAX_GPUS_SUPPORTED : Nat := 4

/-- Conversion of a C `int` to `size_t` (64-bit, two's complement). -/
def size_t_of_int (n : Int) : Nat := (n % 18446744073709551616).toNat

/-- Outcome of `perform_scan_and_update_display` after `recvfrom`. -/
inductive GuiStatus where
  /-- `len == 0`: "No data from kernel module". -/
  | noData
  /-- The header checks fail: "corrupted/incomplete multi-GPU message". -/
  | corruptHeader
  /-- `num_gpus_found` implies more bytes than were received:
  "truncated multi-GPU message data". -/
  | truncated
  /-- `num_gpus_found == 0`: "No GPUs reported". -/
  | noGpus
  /-- The message is accepted and rows are rendered. -/
  | display
deriving DecidableEq

/-- Embeds the receive-side validation of
`perform_scan_and_update_display` (gui source lines 254-307): `len` is
the byte count `recvfrom` returned, `nlmsg_len` the length field of the
received netlink header, `num` the declared `num_gpus_found`.  Returns
the resulting status together with the list of `gpus[]` indices the
display loop reads (the loop runs `i` from 0 while
`i < num_gpus_found && i < MAX_GPUS_SUPPORTED`).  The size arithmetic on
`expected_min_len` is `size_t` arithmetic, hence the 2^64 wraps. -/
def gui_validate (len nlmsg_len : Nat) (num : Int) : GuiStatus × List Nat :=
  if len = 0 then (.noData, [])
  else if nlmsg_len < NLMSG_HDRLEN ∨ len < nlmsg_len ∨
          len < NLMSG_HDRLEN + OFFSETOF_GPUS then
    (.corruptHeader, [])
  else if len < (NLMSG_HDRLEN +
      (OFFSETOF_GPUS + size_t_of_int num * SIZEOF_GPU_INFO_PACKET % 18446744073709551616)
        % 18446744073709551616) % 18446744073709551616 ∧ 0 < num then
    (.truncated, [])
  else if num = 0 then (.noGpus, [])
  else (.display, List.range (min num.toNat MAX_GPUS_SUPPORTED))

/-! ## Concrete test fixtures

Small closed instances used to evaluate the embedded functions on
explicit inputs. -/

/-- A sysfs tree in which no path exists at all. -/
def fsAbsent : Fs := fun _ => .absent

/-- An NVIDIA-vendor device slot with no hwmon match and a stale
`memory_total_mb` left over from an earlier cycle. -/
def gpuStale : GpuMonitor :=
  { zeroGpu with vendor_id := PCI_VENDOR_ID_NVIDIA, memory_total_mb := 7 }

/-- A PCI device whose class code 0x030100 is the XGA controller
subclass 0x0301. -/
def xgaDev : PciDev := { vendor := 0x10de, device := 1, classCode := 0x030100 }

/-- An Intel-vendor device slot for which capability probing found
nothing: no hwmon, no DRM, every availability flag false. -/
def intelSim : GpuMonitor := { zeroGpu with vendor_id := PCI_VENDOR_ID_INTEL }

/-- A sysfs tree for one AMD device: temperature 55000 millidegrees,
3 MiB of VRAM in use, 42 percent busy. -/
def fsAmd : Fs := fun p =>
  if p = ("/hw/temp1_input") then .value 55000
  else if p = ("/drm/device/mem_info_vram_used") then .value 3145728
  else if p = ("/drm/device/gpu_busy_percent") then .value 42
  else .absent

/-- An AMD device slot with hwmon temperature and DRM memory /
utilization capabilities recorded as available. -/
def gpuAmd : GpuMonitor :=
  { zeroGpu with
      vendor_id := PCI_VENDOR_ID_AMD, hwmon_available := true,
      hwmon_path := ("/hw"), temp_available := true, drm_available := true,
      drm_path := ("/drm"), memory_info_available := true, util_available := true }

/-- Five qualifying display devices — one more than the table holds. -/
def devs5 : List PciDev :=
  [ { vendor := 0x10de, device := 1, classCode := 0x030000 },
    { vendor := 0x1002, device := 2, classCode := 0x030000 },
    { vendor := 0x8086, device := 3, classCode := 0x030200 },
    { vendor := 0x0001, device := 4, classCode := 0x030000 },
    { vendor := 0x0002, device := 5, classCode := 0x030200 } ]

/-- A sysfs tree whose hwmon directory offers `power1_input` (12 W in
microwatts) but no `power1_average`. -/
def fsPower : Fs := fun p =>
  if p = ("/hw/power1_input") then .value 12000000
  else .absent

/-- An NVIDIA device slot whose hwmon root was discovered, before leaf
capability probing. -/
def gpuNv : GpuMonitor :=
  { zeroGpu with
      vendor_id := PCI_VENDOR_ID_NVIDIA, hwmon_available := true,
      hwmon_path := ("/hw") }

/-! ## Helper lemmas -/

theorem u32_natCast (n : Nat) (h : n < 4294967296) : u32 (n : Int) = n := by
  unfold u32
  rw [Int.emod_eq_of_lt (by positivity) (by exact_mod_cast h)]
  exact Int.toNat_natCast n

theorem u32_tdiv_natCast (n d : Nat) (h : n / d < 4294967296) :
    u32 (Int.tdiv (n : Int) (d : Int)) = n / d := by
  have he : Int.tdiv (n : Int) (d : Int) = ((n / d : Nat) : Int) := rfl
  rw [he]
  exact u32_natCast _ h

/-- Closed form of the `detect_gpus` loop: starting with `count` slots
already filled, it keeps the first `MAX_GPUS - count` devices that pass
the class filter, in enumeration order. -/
theorem detect_loop_spec (probe : GpuMonitor → GpuMonitor) (devs : List PciDev) :
    ∀ count, count ≤ MAX_GPUS →
      detect_loop probe devs count =
        ((devs.filter detect_accept).take (MAX_GPUS - count)).map
          (fun d => probe (mk_gpu_basic d)) := by
  induction devs with
  | nil => intro count hc; simp [detect_loop]
  | cons d rest ih =>
    intro count hc
    by_cases h4 : count < MAX_GPUS
    · cases ha : detect_accept d with
      | false =>
        rw [detect_loop]
        simp [h4, ha, List.filter_cons, ih count hc]
      | true =>
        rw [detect_loop]
        have hstep : MAX_GPUS - count = (MAX_GPUS - (count + 1)) + 1 := by
          unfold MAX_GPUS at *; omega
        simp [h4, ha, List.filter_cons, hstep, ih (count + 1) h4]
    · have hc4 : MAX_GPUS - count = 0 := by omega
      rw [detect_loop]
      simp [h4, hc4]

/-! ## Claims -/

/-- C1 (corrected).  The reset phase of `update_gpu_data` zeroes exactly
six numeric fields — memory_used, temperature, clock, power,
utilization and fan speed — before the vendor strategy runs, so those
six read as zero afterwards when their reads fail; `memory_total_mb` is
not in the reset list and carries its previous value forward. -/
theorem C1_reset_phase (fs : Fs) (counter jiffies : Nat) (gpu : GpuMonitor) :
    (reset_metrics gpu).memory_used_mb = 0 ∧
    (reset_metrics gpu).temperature_c = 0 ∧
    (reset_metrics gpu).clock_mhz = 0 ∧
    (reset_metrics gpu).power_watts = 0 ∧
    (reset_metrics gpu).utilization_pct = 0 ∧
    (reset_metrics gpu).fan_rpm = 0 ∧
    (reset_metrics gpu).memory_total_mb = gpu.memory_total_mb ∧
    update_gpu_data fs counter jiffies gpu =
      { dispatch_read fs counter (reset_metrics gpu) with last_update := jiffies } :=
  ⟨rfl, rfl, rfl, rfl, rfl, rfl, rfl, rfl⟩

/-- C1 counterexample.  An NVIDIA device with no hwmon source and a
stale `memory_total_mb` of 7: after a full refresh in which every read
fails, `memory_total_mb` is still 7, not the zero the claim requires
for every numeric metric field. -/
theorem C1_counterexample_stale_total :
    (update_gpu_data fsAbsent 1 99 gpuStale).memory_total_mb = 7 ∧
    (update_gpu_data fsAbsent 1 99 gpuStale).memory_total_mb ≠ 0 := by
  constructor
  · decide
  · decide

/-- C2 (corrected).  A one-device host is accepted by `detect_gpus` iff
its base+subclass is 0x0300 (VGA) or 0x0302 (3D) — XGA 0x0301 and other
display 0x0380 are rejected by the scan.  The v3 netlink module's
`nl_recv_msg` is the component that accepts all four display
subclasses. -/
theorem C2_class_filter (probe : GpuMonitor → GpuMonitor) (d : PciDev) :
    ((detect_gpus probe [d]).1 ≠ [] ↔
      (d.classCode >>> 8 = 0x0300 ∨ d.classCode >>> 8 = 0x0302)) ∧
    (∀ c : Nat, nl_accept c = true ↔
      (c >>> 8 = 0x0300 ∨ c >>> 8 = 0x0301 ∨ c >>> 8 = 0x0302 ∨ c >>> 8 = 0x0380)) := by
  constructor
  · have hshape : (detect_gpus probe [d]).1 =
        if detect_accept d then [probe (mk_gpu_basic d)] else [] := by
      simp [detect_gpus, detect_loop, MAX_GPUS]
    rw [hshape]
    cases ha : detect_accept d with
    | true =>
      have hc : d.classCode >>> 8 = 0x0300 ∨ d.classCode >>> 8 = 0x0302 := by
        unfold detect_accept at ha
        simpa [Bool.or_eq_true, beq_iff_eq] using ha
      simp [hc]
    | false =>
      have hc : ¬(d.classCode >>> 8 = 0x0300 ∨ d.classCode >>> 8 = 0x0302) := by
        unfold detect_accept at ha
        simpa [Bool.or_eq_true, beq_iff_eq] using ha
      simp [hc]
  · intro c
    unfold nl_accept
    simp only [Bool.or_eq_true, beq_iff_eq]
    tauto

/-- C2 counterexample.  A device with class code 0x030100 — the XGA
controller subclass 0x0301, one of the four the claim says qualifies —
is rejected by `detect_gpus`: the table stays empty. -/
theorem C2_counterexample_xga_rejected :
    xgaDev.classCode >>> 8 = 0x0301 ∧
    (detect_gpus (fun g => g) [xgaDev]).1 = [] := by
  constructor
  · decide
  · decide

/-- C3 (corrected).  With no intervening refresh, everything in the
proc output except the global `LAST_UPDATE` header line is byte-for-byte
identical across two reads, and that header line agrees exactly when the
two reads render the same live jiffies value — the source prints the
global `jiffies` counter there, which advances between reads, so the
full outputs are byte-identical only when the jiffies value is
unchanged. -/
theorem C3_show_depends_on_live_jiffies (gpus : List GpuMonitor) (j1 j2 : Nat) :
    (gpu_proc_show gpus j1).drop 2 = (gpu_proc_show gpus j2).drop 2 ∧
    (gpu_proc_show gpus j1).take 1 = (gpu_proc_show gpus j2).take 1 ∧
    ((gpu_proc_show gpus j1)[1]? = (gpu_proc_show gpus j2)[1]? ↔
      toString j1 = toString j2) := by
  refine ⟨rfl, rfl, ?_⟩
  constructor
  · intro h
    simp only [gpu_proc_show, List.cons_append, List.getElem?_cons_succ,
      List.getElem?_cons_zero, Option.some.injEq] at h
    have h2 := congrArg String.data h
    simp only [String.data_append] at h2
    exact String.ext (List.append_cancel_left h2)
  · intro h
    simp [gpu_proc_show, h]

/-- C3 counterexample.  The same (empty) table read at jiffies 100 and
at jiffies 101 with no refresh in between gives different bytes: the
`LAST_UPDATE` header differs. -/
theorem C3_counterexample_two_reads_differ :
    gpu_proc_show [] 100 ≠ gpu_proc_show [] 101 := by decide

/-- C4 (corrected).  The exposed format's data-source indicator is the
fixed string `REAL_HARDWARE_SYSFS` for every table state — including
states whose Intel metrics were synthesized — so fabricated values are
labeled as measured rather than being distinguished. -/
theorem C4_data_source_indicator_constant (gpus : List GpuMonitor) (jiffies : Nat) :
    (gpu_proc_show gpus jiffies)[2]? = some ("DATA_SOURCE:REAL_HARDWARE_SYSFS") := rfl

/-- C4 counterexample.  An Intel device with every capability flag
false: the refresh synthesizes its utilization (counter 1 gives 7), yet
the proc output still announces `DATA_SOURCE:REAL_HARDWARE_SYSFS` — the
fabricated row is labeled as measured. -/
theorem C4_counterexample_simulated_as_real :
    intelSim.hwmon_available = false ∧ intelSim.drm_available = false ∧
    intelSim.util_available = false ∧
    (update_gpu_data fsAbsent 1 5 intelSim).utilization_pct = 7 ∧
    (gpu_proc_show [update_gpu_data fsAbsent 1 5 intelSim] 100)[2]? =
      some ("DATA_SOURCE:REAL_HARDWARE_SYSFS") := by
  refine ⟨rfl, rfl, rfl, by decide, by decide⟩

/-- C5 (confirmed).  For an AMD device whose Capability Record has the
hwmon temperature and DRM memory / utilization paths available, and
whose leaf reads parse to raw integers in machine range, the refresh
sets temperature to rawmillidegrees / 1000, memory_used_mb to
raw_bytes / 2^20, and utilization to the raw percent value unchanged —
whatever the power and fan capabilities and reads do. -/
theorem C5_amd_unit_conversions (fs : Fs) (counter jiffies : Nat) (gpu : GpuMonitor)
    (t mu u : Nat)
    (hv : gpu.vendor_id = PCI_VENDOR_ID_AMD)
    (hh : gpu.hwmon_available = true)
    (ht : gpu.temp_available = true)
    (hd : gpu.drm_available = true)
    (hm : gpu.memory_info_available = true)
    (hu : gpu.util_available = true)
    (hft : fs (gpu.hwmon_path ++ ("/temp1_input")) = .value (t : Int))
    (hfm : fs (gpu.drm_path ++ ("/device/mem_info_vram_used")) = .value (mu : Int))
    (hfu : fs (gpu.drm_path ++ ("/device/gpu_busy_percent")) = .value (u : Int))
    (htb : t < 4294967296) (hmb : mu < 4503599627370496) (hub : u < 4294967296) :
    (update_gpu_data fs counter jiffies gpu).temperature_c = t / 1000 ∧
    (update_gpu_data fs counter jiffies gpu).memory_used_mb = mu / 2 ^ 20 ∧
    (update_gpu_data fs counter jiffies gpu).utilization_pct = u := by
  have hT : u32 (Int.tdiv (t : Int) 1000) = t / 1000 :=
    u32_tdiv_natCast t 1000 (lt_of_le_of_lt (Nat.div_le_self t 1000) htb)
  have hM : u32 (Int.tdiv (mu : Int) 1048576) = mu / 1048576 := by
    have h1 : mu / 1048576 < 4294967296 := Nat.div_lt_of_lt_mul (by omega)
    exact u32_tdiv_natCast mu 1048576 h1
  have hU : u32 ((u : Nat) : Int) = u := u32_natCast u hub
  have hft2 : leaf_val fs (gpu.hwmon_path ++ ("/temp1_input")) = some ((t : Nat) : Int) := by
    rw [leaf_val, hft]
  have hfm2 : leaf_val fs (gpu.drm_path ++ ("/device/mem_info_vram_used")) =
      some ((mu : Nat) : Int) := by
    rw [leaf_val, hfm]
  have hfu2 : leaf_val fs (gpu.drm_path ++ ("/device/gpu_busy_percent")) =
      some ((u : Nat) : Int) := by
    rw [leaf_val, hfu]
  cases hp : gpu.power_available <;>
  cases hpv : leaf_val fs (gpu.hwmon_path ++ ("/power1_average")) <;>
  cases hfb : gpu.fan_available <;>
  cases hfv : leaf_val fs (gpu.hwmon_path ++ ("/fan1_input")) <;>
  cases hmtv : leaf_val fs (gpu.drm_path ++ ("/device/mem_info_vram_total")) <;>
  simp [update_gpu_data, dispatch_read, reset_metrics, read_amd_data, read_hwmon_temp,
    read_hwmon_power, read_hwmon_fan, read_drm_memory, read_drm_util, hv, hh, ht, hd,
    hm, hu, hp, hpv, hfb, hfv, hmtv, hft2, hfm2, hfu2, hT, hM, hU,
    PCI_VENDOR_ID_NVIDIA, PCI_VENDOR_ID_AMD, PCI_VENDOR_ID_INTEL]

/-- C5 witness: the fixture AMD device reads 55000 millidegrees, 3 MiB
used and 42 percent busy, and the refresh exposes 55 degrees, 3 MB and
42 percent. -/
theorem C5_amd_unit_conversions_witness :
    gpuAmd.vendor_id = PCI_VENDOR_ID_AMD ∧
    (update_gpu_data fsAmd 3 9 gpuAmd).temperature_c = 55 ∧
    (update_gpu_data fsAmd 3 9 gpuAmd).memory_used_mb = 3 ∧
    (update_gpu_data fsAmd 3 9 gpuAmd).utilization_pct = 42 := by
  have h := C5_amd_unit_conversions fsAmd 3 9 gpuAmd 55000 3145728 42
    rfl rfl rfl rfl rfl rfl (by decide) (by decide) (by decide)
    (by decide) (by decide) (by decide)
  exact ⟨rfl, by simpa using h.1, by simpa using h.2.1, h.2.2⟩

/-- C6 (confirmed).  For an Intel device with no DRM match and no
readable CPU thermal proxy, the refresh synthesizes every metric inside
the stated ranges: utilization is counter * 7 mod 101 and at most 100,
memory_used lies in [512, 2048] MB, power in [5, 25] W, temperature in
[45, 70] degrees and clock in [300, 1200] MHz. -/
theorem C6_intel_synthesized_ranges (fs : Fs) (counter jiffies : Nat) (gpu : GpuMonitor)
    (hv : gpu.vendor_id = PCI_VENDOR_ID_INTEL)
    (hd : gpu.drm_available = false)
    (hcpu : fs ("/sys/class/hwmon/hwmon2/temp1_input") = .absent) :
    (update_gpu_data fs counter jiffies gpu).utilization_pct = counter * 7 % 101 ∧
    (update_gpu_data fs counter jiffies gpu).utilization_pct ≤ 100 ∧
    512 ≤ (update_gpu_data fs counter jiffies gpu).memory_used_mb ∧
    (update_gpu_data fs counter jiffies gpu).memory_used_mb ≤ 2048 ∧
    5 ≤ (update_gpu_data fs counter jiffies gpu).power_watts ∧
    (update_gpu_data fs counter jiffies gpu).power_watts ≤ 25 ∧
    45 ≤ (update_gpu_data fs counter jiffies gpu).temperature_c ∧
    (update_gpu_data fs counter jiffies gpu).temperature_c ≤ 70 ∧
    300 ≤ (update_gpu_data fs counter jiffies gpu).clock_mhz ∧
    (update_gpu_data fs counter jiffies gpu).clock_mhz ≤ 1200 := by
  have hpe : path_exists fs ("/sys/class/hwmon/hwmon2/temp1_input") = false := by
    rw [path_exists, hcpu]
  simp [update_gpu_data, dispatch_read, reset_metrics, read_intel_data, hv, hd, hpe,
    PCI_VENDOR_ID_NVIDIA, PCI_VENDOR_ID_AMD, PCI_VENDOR_ID_INTEL]
  omega

/-- C6 witness: the fixture Intel device at counter 1 exposes the
synthesized utilization 7 and a temperature of at least 45. -/
theorem C6_intel_synthesized_ranges_witness :
    intelSim.vendor_id = PCI_VENDOR_ID_INTEL ∧ intelSim.drm_available = false ∧
    (update_gpu_data fsAbsent 1 0 intelSim).utilization_pct = 1 * 7 % 101 ∧
    45 ≤ (update_gpu_data fsAbsent 1 0 intelSim).temperature_c := by
  have h := C6_intel_synthesized_ranges fsAbsent 1 0 intelSim rfl rfl rfl
  exact ⟨rfl, rfl, h.1, h.2.2.2.2.2.2.1⟩

/-- C7 (confirmed).  When more qualifying display devices exist than the
table capacity of 4, the scan retains exactly the first 4 in
enumeration order, the table length never exceeds the capacity, and the
scan still returns success — the surplus devices are ignored without an
error. -/
theorem C7_capacity_bound (probe : GpuMonitor → GpuMonitor) (devs : List PciDev)
    (h : MAX_GPUS < (devs.filter detect_accept).length) :
    (detect_gpus probe devs).1 =
      ((devs.filter detect_accept).take MAX_GPUS).map (fun d => probe (mk_gpu_basic d)) ∧
    (detect_gpus probe devs).1.length = MAX_GPUS ∧
    (detect_gpus probe devs).2 = 0 := by
  have hs := detect_loop_spec probe devs 0 (by norm_num)
  rw [Nat.sub_zero] at hs
  have htab : (detect_gpus probe devs).1 =
      ((devs.filter detect_accept).take MAX_GPUS).map (fun d => probe (mk_gpu_basic d)) := by
    simpa [detect_gpus] using hs
  have hlen : (detect_gpus probe devs).1.length = MAX_GPUS := by
    rw [htab]
    simp only [List.length_map, List.length_take]
    omega
  refine ⟨htab, hlen, ?_⟩
  simp only [detect_gpus]
  rw [hs]
  rw [if_pos]
  rw [List.length_map, List.length_take]
  unfold MAX_GPUS at h ⊢
  omega

/-- C7 witness: five qualifying devices, but only the first four fill
the table and the scan reports success. -/
theorem C7_capacity_bound_witness :
    MAX_GPUS < (devs5.filter detect_accept).length ∧
    (detect_gpus (fun g => g) devs5).1.length = MAX_GPUS ∧
    (detect_gpus (fun g => g) devs5).2 = 0 := by
  have h := C7_capacity_bound (fun g => g) devs5 (by decide)
  exact ⟨by decide, h.2.1, h.2.2⟩

/-- C8 (confirmed).  With no qualifying PCI display device,
`detect_gpus` returns -ENODEV, module initialization reports that
negative code, the device table stays empty, and the exposure format
over the empty table opens with the line GPU_COUNT:0. -/
theorem C8_zero_devices (probe : GpuMonitor → GpuMonitor) (devs : List PciDev)
    (jiffies : Nat) (h : devs.filter detect_accept = []) :
    (detect_gpus probe devs).2 = -19 ∧
    (gpu_monitor_init probe devs).1 < 0 ∧
    (gpu_monitor_init probe devs).2 = [] ∧
    (gpu_proc_show (gpu_monitor_init probe devs).2 jiffies)[0]? =
      some ("GPU_COUNT:0") := by
  have hs := detect_loop_spec probe devs 0 (by norm_num)
  rw [Nat.sub_zero, h] at hs
  simp only [List.take_nil, List.map_nil] at hs
  have htab : detect_gpus probe devs = ([], -19) := by
    simp [detect_gpus, hs]
  have hinit : gpu_monitor_init probe devs = (-19, []) := by
    simp [gpu_monitor_init, htab]
  refine ⟨by rw [htab], by rw [hinit]; norm_num, by rw [hinit], ?_⟩
  rw [hinit]
  rfl

/-- C8 witness: the empty host — initialization fails and the empty
table renders GPU_COUNT:0. -/
theorem C8_zero_devices_witness :
    List.filter detect_accept ([] : List PciDev) = [] ∧
    (gpu_monitor_init (fun g => g) []).1 < 0 ∧
    (gpu_proc_show (gpu_monitor_init (fun g => g) []).2 0)[0]? =
      some ("GPU_COUNT:0") := by
  have h := C8_zero_devices (fun g => g) [] 0 rfl
  exact ⟨rfl, h.2.1, h.2.2.2⟩

/-- C9 (confirmed).  The GTK receiver validates the declared
`num_gpus_found` against the byte count `recvfrom` returned before the
display loop runs: when a positive declared count implies more bytes
than were received the message is rejected with no array access, and
whenever the loop does run, every index it touches is below the fixed
maximum of 4 and its packet entry lies entirely within the received
bytes. -/
theorem C9_gui_count_validation (len nlmsg_len : Nat) (num : Int)
    (hnl : num < 2147483648) (hnh : -2147483648 ≤ num) :
    (0 < num →
      len < NLMSG_HDRLEN + OFFSETOF_GPUS + SIZEOF_GPU_INFO_PACKET * num.toNat →
      (gui_validate len nlmsg_len num).1 ≠ .display ∧
      (gui_validate len nlmsg_len num).2 = []) ∧
    (∀ i ∈ (gui_validate len nlmsg_len num).2,
      i < MAX_GPUS_SUPPORTED ∧
      NLMSG_HDRLEN + OFFSETOF_GPUS + SIZEOF_GPU_INFO_PACKET * (i + 1) ≤ len) := by
  constructor
  · intro hpos hlen
    unfold NLMSG_HDRLEN OFFSETOF_GPUS SIZEOF_GPU_INFO_PACKET at hlen
    unfold gui_validate NLMSG_HDRLEN OFFSETOF_GPUS SIZEOF_GPU_INFO_PACKET
      MAX_GPUS_SUPPORTED size_t_of_int
    split_ifs with h0 hhdr htr hz
    · exact ⟨by decide, rfl⟩
    · exact ⟨by decide, rfl⟩
    · exact ⟨by decide, rfl⟩
    · exact ⟨by decide, rfl⟩
    · exfalso
      omega
  · intro i hi
    unfold gui_validate NLMSG_HDRLEN OFFSETOF_GPUS SIZEOF_GPU_INFO_PACKET
      MAX_GPUS_SUPPORTED size_t_of_int at hi
    unfold NLMSG_HDRLEN OFFSETOF_GPUS SIZEOF_GPU_INFO_PACKET MAX_GPUS_SUPPORTED
    split_ifs at hi with h0 hhdr htr hz
    · simp at hi
    · simp at hi
    · simp at hi
    · simp at hi
    · simp only [List.mem_range] at hi
      constructor
      · omega
      · omega

/-- C9 witness: a 20-byte message declaring 2 devices (which would need
36 bytes) is rejected before any entry is read. -/
theorem C9_gui_count_validation_witness :
    (0 : Int) < 2 ∧ (20 : Nat) < 36 ∧
    (gui_validate 20 20 2).1 ≠ .display ∧ (gui_validate 20 20 2).2 = [] := by
  have h := (C9_gui_count_validation 20 20 2 (by decide) (by decide)).1
    (by decide) (by norm_num [NLMSG_HDRLEN, OFFSETOF_GPUS, SIZEOF_GPU_INFO_PACKET])
  exact ⟨by decide, by decide, h.1, h.2⟩

/-! Frame lemmas for the step functions: each block leaves the power
field alone (except the power block itself, which on a failed read keeps
the current value), and capability probing never changes identity or
discovered roots. -/

theorem read_hwmon_temp_power (fs : Fs) (g : GpuMonitor) :
    (read_hwmon_temp fs g).power_watts = g.power_watts := by
  unfold read_hwmon_temp
  repeat' split
  all_goals rfl

theorem read_hwmon_temp_path (fs : Fs) (g : GpuMonitor) :
    (read_hwmon_temp fs g).hwmon_path = g.hwmon_path := by
  unfold read_hwmon_temp
  repeat' split
  all_goals rfl

theorem read_hwmon_power_none (fs : Fs) (g : GpuMonitor)
    (hl : leaf_val fs (g.hwmon_path ++ ("/power1_average")) = none) :
    (read_hwmon_power fs g).power_watts = g.power_watts := by
  unfold read_hwmon_power
  split
  · rw [hl]
  · rfl

theorem read_hwmon_fan_power (fs : Fs) (g : GpuMonitor) :
    (read_hwmon_fan fs g).power_watts = g.power_watts := by
  unfold read_hwmon_fan
  repeat' split
  all_goals rfl

theorem read_drm_memory_power (fs : Fs) (g : GpuMonitor) :
    (read_drm_memory fs g).power_watts = g.power_watts := by
  simp only [read_drm_memory]
  repeat' split
  all_goals rfl

theorem read_drm_util_power (fs : Fs) (g : GpuMonitor) :
    (read_drm_util fs g).power_watts = g.power_watts := by
  unfold read_drm_util
  repeat' split
  all_goals rfl

theorem hwmon_chain_power_none (fs : Fs) (g : GpuMonitor)
    (hl : leaf_val fs (g.hwmon_path ++ ("/power1_average")) = none) :
    (read_hwmon_fan fs (read_hwmon_power fs (read_hwmon_temp fs g))).power_watts =
      g.power_watts := by
  have hl2 : leaf_val fs ((read_hwmon_temp fs g).hwmon_path ++ ("/power1_average")) = none := by
    rw [read_hwmon_temp_path]
    exact hl
  rw [read_hwmon_fan_power, read_hwmon_power_none fs _ hl2, read_hwmon_temp_power]

theorem read_nvidia_power_none (fs : Fs) (g : GpuMonitor)
    (hl : leaf_val fs (g.hwmon_path ++ ("/power1_average")) = none) :
    (read_nvidia_data fs g).power_watts = g.power_watts := by
  unfold read_nvidia_data
  split
  · rfl
  · exact hwmon_chain_power_none fs g hl

theorem read_amd_power_none (fs : Fs) (g : GpuMonitor)
    (hl : leaf_val fs (g.hwmon_path ++ ("/power1_average")) = none) :
    (read_amd_data fs g).power_watts = g.power_watts := by
  simp only [read_amd_data]
  split
  · split
    · rw [read_drm_util_power, read_drm_memory_power]
      exact hwmon_chain_power_none fs g hl
    · exact hwmon_chain_power_none fs g hl
  · split
    · rw [read_drm_util_power, read_drm_memory_power]
    · rfl

theorem init_gpu_caps_path (fs : Fs) (g : GpuMonitor) :
    (init_gpu_caps fs g).hwmon_path = g.hwmon_path := by
  simp only [init_gpu_caps]
  repeat' split
  all_goals rfl

theorem init_gpu_caps_vendor (fs : Fs) (g : GpuMonitor) :
    (init_gpu_caps fs g).vendor_id = g.vendor_id := by
  simp only [init_gpu_caps]
  repeat' split
  all_goals rfl

/-- C10 (confirmed).  For an NVIDIA or AMD device whose hwmon directory
offers `power1_input` but no `power1_average`, capability probing sets
the power availability flag — the probe falls back to `power1_input` —
yet the refresh reads only `power1_average`, so the read fails and the
exposed power value stays at the reset value zero every cycle, despite
the flag being true. -/
theorem C10_power_probe_read_mismatch (fs : Fs) (counter jiffies : Nat) (gpu : GpuMonitor)
    (hv : gpu.vendor_id = PCI_VENDOR_ID_NVIDIA ∨ gpu.vendor_id = PCI_VENDOR_ID_AMD)
    (hh : gpu.hwmon_available = true)
    (havg : fs (gpu.hwmon_path ++ ("/power1_average")) = .absent)
    (hin : path_exists fs (gpu.hwmon_path ++ ("/power1_input")) = true) :
    (init_gpu_caps fs gpu).power_available = true ∧
    (update_gpu_data fs counter jiffies (init_gpu_caps fs gpu)).power_watts = 0 := by
  have hpe : path_exists fs (gpu.hwmon_path ++ ("/power1_average")) = false := by
    rw [path_exists, havg]
  constructor
  · simp [init_gpu_caps, hh, hpe, hin]
    repeat' split
    all_goals rfl
  · have hlv : leaf_val fs ((reset_metrics (init_gpu_caps fs gpu)).hwmon_path ++
        ("/power1_average")) = none := by
      have hp2 : (reset_metrics (init_gpu_caps fs gpu)).hwmon_path = gpu.hwmon_path := by
        show (init_gpu_caps fs gpu).hwmon_path = gpu.hwmon_path
        exact init_gpu_caps_path fs gpu
      rw [hp2, leaf_val, havg]
    have hres : (update_gpu_data fs counter jiffies (init_gpu_caps fs gpu)).power_watts =
        (dispatch_read fs counter (reset_metrics (init_gpu_caps fs gpu))).power_watts := rfl
    rw [hres]
    have hvr : (reset_metrics (init_gpu_caps fs gpu)).vendor_id = gpu.vendor_id := by
      show (init_gpu_caps fs gpu).vendor_id = gpu.vendor_id
      exact init_gpu_caps_vendor fs gpu
    rcases hv with hv | hv
    · have hd : dispatch_read fs counter (reset_metrics (init_gpu_caps fs gpu)) =
          read_nvidia_data fs (reset_metrics (init_gpu_caps fs gpu)) := by
        unfold dispatch_read
        rw [hvr, hv]
        simp [PCI_VENDOR_ID_NVIDIA]
      rw [hd, read_nvidia_power_none fs _ hlv]
      rfl
    · have hd : dispatch_read fs counter (reset_metrics (init_gpu_caps fs gpu)) =
          read_amd_data fs (reset_metrics (init_gpu_caps fs gpu)) := by
        unfold dispatch_read
        rw [hvr, hv]
        norm_num [PCI_VENDOR_ID_NVIDIA, PCI_VENDOR_ID_AMD]
      rw [hd, read_amd_power_none fs _ hlv]
      rfl

/-- C10 witness: the fixture hwmon tree has only `power1_input`; the
probe still reports power as available, and after a refresh the exposed
power value is zero. -/
theorem C10_power_probe_read_mismatch_witness :
    gpuNv.hwmon_available = true ∧
    fsPower (gpuNv.hwmon_path ++ ("/power1_average")) = FileEntry.absent ∧
    path_exists fsPower (gpuNv.hwmon_path ++ ("/power1_input")) = true ∧
    (init_gpu_caps fsPower gpuNv).power_available = true ∧
    (update_gpu_data fsPower 1 2 (init_gpu_caps fsPower gpuNv)).power_watts = 0 := by
  have h := C10_power_probe_read_mismatch fsPower 1 2 gpuNv (Or.inl rfl) rfl
    (by decide) (by decide)
  exact ⟨rfl, by decide, by decide, h.1, h.2⟩

end GpuViewer
